import Mathlib

/-!
Verification of the HDB resale-price ETL pipeline (extraction_layer.py,
transformation_layer.py) against its natural-language specification.

Shallow embedding notes:
* pandas numeric cells are modelled by `PVal`: a rational number, positive or
  negative infinity, or `null` (covering both NaN and the nullable NA — the
  two are indistinguishable under `pd.isna`, which is all the spec talks
  about).  Elementwise frame operations are modelled at row level.
* float64 arithmetic is modelled over ℚ with IEEE special cases for division
  by zero (x/0 = ±inf for x ≠ 0, 0/0 = NaN) and numpy round-half-to-even;
  the claims settled here depend only on the null/zero/infinity structure,
  not on binary rounding of representable values.
* the paginated fetcher's while-loop is modelled as a fuel-indexed step
  function over an explicit state (offset, limit, accumulated records); the
  upstream API is a parameter mapping (offset, limit) to one response.
-/

/-- A pandas numeric cell: null (NaN/NA), +inf, -inf, or a rational value. -/
inductive PVal where
  | null : PVal
  | inf : PVal
  | ninf : PVal
  | num : ℚ → PVal
deriving DecidableEq, Repr

/-- `pd.isna` on a numeric cell. -/
def isnaP : PVal → Bool
  | PVal.null => true
  | _ => false

/-- numpy round-half-to-even of a rational to an integer. -/
def qRoundHalfEven (x : ℚ) : ℤ :=
  let f : ℤ := Int.floor x
  let r : ℚ := x - f
  if r < 1/2 then f
  else if 1/2 < r then f + 1
  else if f % 2 = 0 then f else f + 1

/-- `Series.round(d)` on one rational cell: round-half-to-even at
`scale = 10^d`. -/
def qRoundScale (scale : ℚ) (x : ℚ) : ℚ := (qRoundHalfEven (x * scale) : ℚ) / scale

/-- `Series.round(d)` lifted to pandas cells: null and infinities pass
through. -/
def pRound (scale : ℚ) : PVal → PVal
  | PVal.null => PVal.null
  | PVal.inf => PVal.inf
  | PVal.ninf => PVal.ninf
  | PVal.num q => PVal.num (qRoundScale scale q)

/-- Elementwise pandas multiplication with IEEE special cases. -/
def pMul : PVal → PVal → PVal
  | PVal.null, _ => PVal.null
  | _, PVal.null => PVal.null
  | PVal.num a, PVal.num b => PVal.num (a * b)
  | PVal.inf, PVal.num b =>
      if b = 0 then PVal.null else if 0 < b then PVal.inf else PVal.ninf
  | PVal.ninf, PVal.num b =>
      if b = 0 then PVal.null else if 0 < b then PVal.ninf else PVal.inf
  | PVal.num a, PVal.inf =>
      if a = 0 then PVal.null else if 0 < a then PVal.inf else PVal.ninf
  | PVal.num a, PVal.ninf =>
      if a = 0 then PVal.null else if 0 < a then PVal.ninf else PVal.inf
  | PVal.inf, PVal.inf => PVal.inf
  | PVal.inf, PVal.ninf => PVal.ninf
  | PVal.ninf, PVal.inf => PVal.ninf
  | PVal.ninf, PVal.ninf => PVal.inf

/-- Elementwise pandas division with IEEE special cases: division by zero
yields ±inf for a nonzero dividend and NaN for 0/0 (numpy semantics, which
pandas nullable integer and float dtypes follow). -/
def pDiv : PVal → PVal → PVal
  | PVal.null, _ => PVal.null
  | _, PVal.null => PVal.null
  | PVal.num a, PVal.num b =>
      if b = 0 then
        if a = 0 then PVal.null
        else if 0 < a then PVal.inf else PVal.ninf
      else PVal.num (a / b)
  | PVal.num _, PVal.inf => PVal.num 0
  | PVal.num _, PVal.ninf => PVal.num 0
  | PVal.inf, PVal.num b => if b < 0 then PVal.ninf else PVal.inf
  | PVal.ninf, PVal.num b => if b < 0 then PVal.inf else PVal.ninf
  | PVal.inf, PVal.inf => PVal.null
  | PVal.inf, PVal.ninf => PVal.null
  | PVal.ninf, PVal.inf => PVal.null
  | PVal.ninf, PVal.ninf => PVal.null

/-- The square-metre to square-foot factor 10.764 used by the source
(modelled as the exact rational). -/
def sqmToSqft : PVal := PVal.num (10764 / 1000)

/-- `derive_price_metrics` of transformation_layer.py at one row:
`price_per_sqm = (resale_price / floor_area_sqm).round(2)`,
`floor_area_sqft = (floor_area_sqm * 10.764).round(2)`,
`price_per_sqft = (resale_price / floor_area_sqft).round(2)`.
Returns `(price_per_sqm, floor_area_sqft, price_per_sqft)`. -/
def derive_price_metrics_row (resale_price floor_area_sqm : PVal) :
    PVal × PVal × PVal :=
  let price_per_sqm := pRound 100 (pDiv resale_price floor_area_sqm)
  let floor_area_sqft := pRound 100 (pMul floor_area_sqm sqmToSqft)
  let price_per_sqft := pRound 100 (pDiv resale_price floor_area_sqft)
  (price_per_sqm, floor_area_sqft, price_per_sqft)

/-- Python `str.strip()` on a character list: drop leading and trailing
whitespace. -/
def stripChars (cs : List Char) : List Char :=
  ((cs.dropWhile Char.isWhitespace).reverse.dropWhile Char.isWhitespace).reverse

/-- Python `s.split('TO')`: split on every non-overlapping occurrence of the
two-character separator `"TO"`, scanning left to right and keeping empty
parts, exactly as Python's `str.split` with an explicit separator. -/
def splitOnTO : List Char → List (List Char)
  | [] => [[]]
  | 'T' :: 'O' :: rest => [] :: splitOnTO rest
  | c :: rest =>
      match splitOnTO rest with
      | head :: tail => (c :: head) :: tail
      | [] => [[c]]

/-- Python `int()` applied to the digit part of a stripped string: optional
sign followed by one or more ASCII digits (Python's extra tolerance for
underscores/unicode digits is irrelevant to the inputs settled here). -/
def digitsVal : List Char → Nat → Option Nat
  | [], acc => some acc
  | c :: rest, acc =>
      if c.isDigit then digitsVal rest (acc * 10 + (c.toNat - 48)) else none

/-- Python `int(s)` for a character list `s`: strip whitespace, optional
sign, nonempty digit run; anything else raises (modelled as `none`). -/
def pyInt (s : List Char) : Option Int :=
  match stripChars s with
  | [] => none
  | '-' :: rest =>
      if rest = [] then none else (digitsVal rest 0).map (fun n => -(n : Int))
  | '+' :: rest =>
      if rest = [] then none else (digitsVal rest 0).map (fun n => (n : Int))
  | cs => (digitsVal cs 0).map (fun n => (n : Int))

/-- `parse_storey_range` of transformation_layer.py: `None` input yields
`(None, None)`; otherwise split the string on the literal `"TO"`; exactly
two parts parse via `int(part.strip())`, every other shape or a failed
`int()` yields `(None, None)`. -/
def parse_storey_range (storey_str : Option String) : Option Int × Option Int :=
  match storey_str with
  | none => (none, none)
  | some s =>
      match splitOnTO s.toList with
      | [a, b] =>
          match pyInt a, pyInt b with
          | some lower, some upper => (some lower, some upper)
          | _, _ => (none, none)
      | _ => (none, none)

/-- `storey_median` of `derive_property_characteristics`:
`((storey_lower + storey_upper) / 2).round(1)`; null bounds propagate. -/
def storey_median_of : Option Int × Option Int → Option ℚ
  | (some lower, some upper) => some (qRoundScale 10 ((lower + upper : ℤ) / 2 : ℚ))
  | _ => none

/-! ### Tabular frames

A pandas DataFrame for the schema/dedup/null claims: an ordered column list
and rows of cells, a cell being `none` (null: None/NaN/NA — equal under both
`isnull` and `duplicated`, which treats nulls as equal) or a value. -/

/-- One DataFrame cell: `none` is null. -/
abbrev Cell := Option String

/-- A DataFrame: ordered column names and rows (each row lists its cells in
column order). -/
structure Frame where
  cols : List String
  rows : List (List Cell)
deriving DecidableEq, Repr

/-- Position of column `c` in `cols` (first occurrence; `cols.length` when
absent), the column lookup used to read a named cell from a row. -/
def colIdx : List String → String → Nat
  | [], _ => 0
  | d :: rest, c => if d = c then 0 else colIdx rest c + 1

/-- The cell of row `r` in column `c` (null when the column is absent or the
row is short). -/
def cellAt (cols : List String) (r : List Cell) (c : String) : Cell :=
  r.getD (colIdx cols c) none

/-- `df[c]` as a list of cells; `none` when the column does not exist. -/
def getCol (f : Frame) (c : String) : Option (List Cell) :=
  if c ∈ f.cols then some (f.rows.map (fun r => cellAt f.cols r c)) else none

/-- The fixed target column set of the spec's SchemaNormalizer contract. -/
def targetColumns : List String :=
  ["id", "month", "town", "flat_type", "block", "street_name", "storey_range",
   "floor_area_sqm", "flat_model", "lease_commence_date", "resale_price",
   "remaining_lease"]

/-- `standardize_schema` of transformation_layer.py: if `remaining_lease` is
not among the columns, append it with all-null values
(`df['remaining_lease'] = None`); nothing else is changed. -/
def standardize_schema (f : Frame) : Frame :=
  if "remaining_lease" ∈ f.cols then f
  else ⟨f.cols ++ ["remaining_lease"], f.rows.map (fun r => r ++ [none])⟩

/-- `df.duplicated().sum()`: the number of rows equal to some earlier row
(`seen` accumulates the rows already scanned). -/
def duplicatedCountAux {α : Type} [DecidableEq α] (seen : List α) : List α → Nat
  | [] => 0
  | r :: rs => (if r ∈ seen then 1 else 0) + duplicatedCountAux (r :: seen) rs

/-- `df.drop_duplicates()`: keep each row only if no earlier row equals it
(pandas keeps the first occurrence, in original order). -/
def dropDuplicatesAux {α : Type} [DecidableEq α] (seen : List α) : List α → List α
  | [] => []
  | r :: rs =>
      if r ∈ seen then dropDuplicatesAux (r :: seen) rs
      else r :: dropDuplicatesAux (r :: seen) rs

/-- `remove_duplicates` of transformation_layer.py: count duplicates with
`df.duplicated().sum()`, drop them with `df.drop_duplicates()` (keep first),
return `(cleaned frame, count)`. -/
def remove_duplicates (f : Frame) : Frame × Nat :=
  (⟨f.cols, dropDuplicatesAux [] f.rows⟩, duplicatedCountAux [] f.rows)

/-- Spec-side: is position `i` an exact duplicate of an earlier position? -/
def isDupAt {α : Type} [DecidableEq α] (l : List α) (i : Nat) : Bool :=
  match l[i]? with
  | some v => decide (v ∈ l.take i)
  | none => false

/-- Spec-side duplicate count: number of positions whose row already occurred
strictly earlier (the spec's "k exact-duplicate rows beyond each first
occurrence"). -/
def specDupCount {α : Type} [DecidableEq α] (l : List α) : Nat :=
  (List.range l.length).countP (isDupAt l)

/-- Spec-side keep-first-occurrence: keep the head, then recursively keep
first occurrences among the remaining rows with all later copies of the head
removed. -/
def keepFirstSpec {α : Type} [DecidableEq α] : List α → List α
  | [] => []
  | r :: rs => r :: keepFirstSpec (rs.filter (fun x => decide (x ≠ r)))
termination_by l => l.length
decreasing_by
  exact Nat.lt_succ_of_le (List.length_filter_le _ _)

/-- The mandatory fields of `handle_nulls` (its `critical_fields`). -/
def criticalFields : List String :=
  ["resale_price", "town", "flat_type", "floor_area_sqm", "month"]

/-- Does `df.dropna(subset=critical_fields)` keep this row? (kept iff every
critical field is non-null). -/
def rowKeptByDropna (cols : List String) (r : List Cell) : Bool :=
  criticalFields.all (fun c => (cellAt cols r c).isSome)

/-- `handle_nulls` of transformation_layer.py: count nulls per column before
any filtering (`df.isnull().sum().to_dict()`), drop the rows in which any
critical field is null (`df.dropna(subset=critical_fields)`), and return the
frame, `original_count - len(df)`, and the null census.  `dropna` raises
`KeyError` when a subset column is absent, modelled as `none`. -/
def handle_nulls (f : Frame) : Option (Frame × Nat × List (String × Nat)) :=
  if criticalFields.all (fun c => decide (c ∈ f.cols)) then
    let null_counts := f.cols.map
      (fun c => (c, f.rows.countP (fun r => (cellAt f.cols r c).isNone)))
    let kept := f.rows.filter (rowKeptByDropna f.cols)
    some (⟨f.cols, kept⟩, f.rows.length - kept.length, null_counts)
  else none

/-! ### The paginated fetcher

`fetch_all_records` of extraction_layer.py.  The upstream API is a parameter
mapping `(offset, limit)` to one response; the while-loop is modelled as a
fuel-indexed step function over the loop state (offset, current limit,
accumulated records), `outOfFuel` meaning the loop is still running after
that many iterations. -/

/-- One API response, as discriminated by the source's except-clauses:
a successful page, HTTP 413 (payload too large), another HTTP error, a
timeout, another requests-level error, or a JSON body missing
`result`/`records` (the source's `ValueError`). -/
inductive ApiResult (α : Type) where
  | ok (records : List α)
  | err413
  | httpErr (code : Nat)
  | timeout
  | reqErr
  | badShape
deriving DecidableEq, Repr

/-- The fetch loop state: current offset, current page limit, and the
records accumulated so far. -/
structure FetchState (α : Type) where
  offset : Nat
  limit : Nat
  acc : List α
deriving DecidableEq, Repr

/-- How a fetch ends: the error taxonomy of the spec's FetchError plus the
propagated exceptions of the source. `timeoutFail` is the spec's
`Timeout` failure — expressible here so the timeout-cap claim can be
stated. -/
inductive FetchErr where
  | pageSizeExceeded
  | httpError (code : Nat)
  | requestError
  | malformed
  | timeoutFail
deriving DecidableEq, Repr

/-- Result of running the fetch loop for a given amount of fuel. -/
inductive FetchOutcome (α : Type) where
  | done (records : List α)
  | failed (e : FetchErr)
  | outOfFuel
deriving DecidableEq, Repr

/-- `fetch_all_records` of extraction_layer.py, one constructor per branch of
the loop body: an empty page returns the accumulation; a non-empty page is
appended and the offset advanced by the current limit; HTTP 413 sets
`limit = max(1000, limit // 2)` and then — in source order — aborts if
`limit < 1000`, else retries the same offset with the records kept; a
timeout sleeps and retries with the state unchanged; other HTTP, request,
or response-shape errors abort. -/
def fetch_all_records {α : Type} (api : Nat → Nat → ApiResult α) :
    Nat → FetchState α → FetchOutcome α
  | 0, _ => FetchOutcome.outOfFuel
  | fuel + 1, st =>
      match api st.offset st.limit with
      | ApiResult.ok records =>
          if records.isEmpty then FetchOutcome.done st.acc
          else fetch_all_records api fuel
            ⟨st.offset + st.limit, st.limit, st.acc ++ records⟩
      | ApiResult.err413 =>
          let newLimit := max 1000 (st.limit / 2)
          if newLimit < 1000 then FetchOutcome.failed FetchErr.pageSizeExceeded
          else fetch_all_records api fuel ⟨st.offset, newLimit, st.acc⟩
      | ApiResult.httpErr code => FetchOutcome.failed (FetchErr.httpError code)
      | ApiResult.timeout => fetch_all_records api fuel st
      | ApiResult.reqErr => FetchOutcome.failed FetchErr.requestError
      | ApiResult.badShape => FetchOutcome.failed FetchErr.malformed

/-- The loop state `fetch_all_records(dataset_id)` starts from: offset 0,
the default `limit=15000`, nothing accumulated. -/
def initFetchState {α : Type} : FetchState α := ⟨0, 15000, []⟩

/-- Reachability between loop states of the fetch (the continue-branches of
the loop body): reflexivity, a non-empty page, a 413 shrink-and-retry, and a
timeout retry. -/
inductive FetchReaches {α : Type} (api : Nat → Nat → ApiResult α) :
    FetchState α → FetchState α → Prop where
  | refl (st : FetchState α) : FetchReaches api st st
  | page (st : FetchState α) {st' : FetchState α} (records : List α)
      (hapi : api st.offset st.limit = ApiResult.ok records)
      (hne : records.isEmpty = false)
      (htail : FetchReaches api
        ⟨st.offset + st.limit, st.limit, st.acc ++ records⟩ st') :
      FetchReaches api st st'
  | shrink (st : FetchState α) {st' : FetchState α}
      (hapi : api st.offset st.limit = ApiResult.err413)
      (htail : FetchReaches api ⟨st.offset, max 1000 (st.limit / 2), st.acc⟩ st') :
      FetchReaches api st st'
  | wait (st : FetchState α) {st' : FetchState α}
      (hapi : api st.offset st.limit = ApiResult.timeout)
      (htail : FetchReaches api st st') :
      FetchReaches api st st'

/-- A simulated API that rejects with HTTP 413 every request whose page size
exceeds the threshold `t` and otherwise serves a one-record page. -/
def api413Above (t : Nat) : Nat → Nat → ApiResult Nat :=
  fun _ limit => if limit ≤ t then ApiResult.ok [0] else ApiResult.err413

/-- A simulated API on which every request times out. -/
def apiTimeoutAlways (α : Type) : Nat → Nat → ApiResult α :=
  fun _ _ => ApiResult.timeout

/-! ### The event-triggered transform entrypoint

`lambda_handler` of transformation_layer.py.  The S3 event is modelled as
nested records with every JSON lookup optional (a missing key raises
`KeyError`); the body of `transform_dataset` — S3 reads, the pandas
pipeline, S3 writes — is abstracted as a computation that either succeeds or
raises, since the claim is about the handler's status-code mapping. -/

/-- A Python exception, at the granularity the handler distinguishes:
`KeyError` (caught specifically), and everything else (`IndexError` from
indexing into an empty `Records` list is kept separate so the malformed
empty-list event can be discussed). -/
inductive PyExc where
  | keyError
  | indexError
  | otherError
deriving DecidableEq, Repr

/-- `event["Records"][i]["s3"]["object"]`. -/
structure EvtObject where
  key : Option String
deriving DecidableEq, Repr

/-- `event["Records"][i]["s3"]["bucket"]`. -/
structure EvtBucket where
  name : Option String
deriving DecidableEq, Repr

/-- `event["Records"][i]["s3"]`. -/
structure EvtS3 where
  bucket : Option EvtBucket
  object : Option EvtObject
deriving DecidableEq, Repr

/-- One entry of `event["Records"]`. -/
structure EvtRecord where
  s3 : Option EvtS3
deriving DecidableEq, Repr

/-- The triggering event: `Records` may be missing (KeyError) or an empty
list (IndexError on `[0]`). -/
structure S3Event where
  records : Option (List EvtRecord)
deriving DecidableEq, Repr

/-- The event-parsing prefix of the handler's try-block:
`record = event['Records'][0]`, `bucket = record['s3']['bucket']['name']`,
`key = record['s3']['object']['key']`; each missing key raises `KeyError`,
indexing an empty list raises `IndexError`. -/
def parseS3Event (e : S3Event) : Except PyExc (String × String) :=
  match e.records with
  | none => Except.error PyExc.keyError
  | some [] => Except.error PyExc.indexError
  | some (r :: _) =>
      match r.s3 with
      | none => Except.error PyExc.keyError
      | some s3part =>
          match s3part.bucket with
          | none => Except.error PyExc.keyError
          | some b =>
              match b.name with
              | none => Except.error PyExc.keyError
              | some bname =>
                  match s3part.object with
                  | none => Except.error PyExc.keyError
                  | some o =>
                      match o.key with
                      | none => Except.error PyExc.keyError
                      | some k => Except.ok (bname, k)

/-- `lambda_handler` of transformation_layer.py, returning the statusCode:
the try-block parses the event and runs `transform_dataset`; a `KeyError`
raised anywhere in the try-block returns 400, any other exception returns
500, success returns 200. -/
def lambda_handler (transform : String → String → Except PyExc Unit)
    (e : S3Event) : Nat :=
  match parseS3Event e with
  | Except.error PyExc.keyError => 400
  | Except.error _ => 500
  | Except.ok (b, k) =>
      match transform b k with
      | Except.ok _ => 200
      | Except.error PyExc.keyError => 400
      | Except.error _ => 500


/-! ### Theorems: the paginated fetcher -/

/-- After a 413 the shrunken limit `max 1000 (l / 2)` is never below the
floor, so the source's `if limit < 1000` abort guard cannot fire. -/
theorem notMaxLt (l : Nat) : ¬ (max 1000 (l / 2) < 1000) :=
  Nat.not_lt.mpr (Nat.le_max_left _ _)

/-- Claim C3 (confirmed): a payload-too-large rejection at page size `P`
makes the very next request run at the same offset with page size
`max(1000, P / 2)` — the halved size floored at the configured minimum —
with the already-accumulated records kept intact. -/
theorem err413_same_offset_retry (α : Type) (api : Nat → Nat → ApiResult α)
    (fuel : Nat) (st : FetchState α)
    (hapi : api st.offset st.limit = ApiResult.err413) :
    fetch_all_records api (fuel + 1) st =
      fetch_all_records api fuel ⟨st.offset, max 1000 (st.limit / 2), st.acc⟩ := by
  simp only [fetch_all_records, hapi]
  rw [if_neg (notMaxLt _)]

/-- Witness for C3: one 413 at offset 0 with limit 4000 retries offset 0
with limit `max 1000 2000` and the (empty) accumulation unchanged. -/
theorem err413_same_offset_retry_witness :
    fetch_all_records (fun _ _ => (ApiResult.err413 : ApiResult Nat)) 1 ⟨0, 4000, []⟩ =
      fetch_all_records (fun _ _ => (ApiResult.err413 : ApiResult Nat)) 0
        ⟨0, max 1000 (4000 / 2), []⟩ :=
  err413_same_offset_retry Nat _ 0 ⟨0, 4000, []⟩ rfl

/-- Claim C10 (confirmed): every 413 updates the limit to
`max(1000, limit / 2)` (the `FetchReaches.shrink` step), so from any state
with limit ≥ 1000 every reachable state still has limit ≥ 1000, and no run
of the fetch loop ever takes the abort branch guarded by `limit < 1000`
(it never fails with `PageSizeExceeded`, for any API and any fuel). -/
theorem limit_floor_invariant :
    (∀ (α : Type) (api : Nat → Nat → ApiResult α) (st st' : FetchState α),
        FetchReaches api st st' → 1000 ≤ st.limit → 1000 ≤ st'.limit) ∧
    (∀ (α : Type) (api : Nat → Nat → ApiResult α) (fuel : Nat) (st : FetchState α),
        fetch_all_records api fuel st ≠ FetchOutcome.failed FetchErr.pageSizeExceeded) := by
  constructor
  · intro α api st st' h
    induction h with
    | refl st => exact id
    | page st records hapi hne htail ih => intro h1; exact ih h1
    | shrink st hapi htail ih => intro _; exact ih (Nat.le_max_left _ _)
    | wait st hapi htail ih => exact ih
  · intro α api fuel
    induction fuel with
    | zero => intro st; simp [fetch_all_records]
    | succ n ih =>
      intro st
      simp only [fetch_all_records]
      cases hapi : api st.offset st.limit with
      | ok records =>
        by_cases hr : records.isEmpty
        · simp [hr]
        · simp [hr]; exact ih _
      | err413 =>
        rw [if_neg (notMaxLt _)]
        exact ih _
      | httpErr code => simp
      | timeout => exact ih _
      | reqErr => simp
      | badShape => simp

/-- Witness for C10: the state one 413 step after the initial state
(offset 0, limit 15000) keeps limit ≥ 1000, and a concrete 3-step run
against a threshold-500 API does not fail with `PageSizeExceeded`. -/
theorem limit_floor_invariant_witness :
    1000 ≤ (FetchState.mk 0 (max 1000 (15000 / 2)) ([] : List Nat)).limit ∧
    fetch_all_records (api413Above 500) 3 (initFetchState (α := Nat)) ≠
      FetchOutcome.failed FetchErr.pageSizeExceeded :=
  ⟨limit_floor_invariant.1 Nat (api413Above 500) initFetchState _
      (FetchReaches.shrink _ (by decide) (FetchReaches.refl _)) (by decide),
   limit_floor_invariant.2 Nat (api413Above 500) 3 _⟩

/-- Claim C1 (code_bug divergence): against an API that 413-rejects every
page size above threshold T = 500, a fetch whose limit is at or above the
1000 floor never terminates and never fails, for any amount of fuel: the
source clamps `limit = max(1000, limit // 2)` before testing `limit < 1000`,
so the `PageSizeExceeded` abort the claim (and the source's own dead guard)
prescribes is unreachable, and the loop retries at limit 1000 forever
instead of converging to a page size ≤ T. -/
theorem fetch_threshold500_diverges :
    ∀ (fuel offset limit : Nat) (acc : List Nat), 1000 ≤ limit →
      fetch_all_records (api413Above 500) fuel ⟨offset, limit, acc⟩ =
        FetchOutcome.outOfFuel := by
  intro fuel
  induction fuel with
  | zero => intros; rfl
  | succ n ih =>
    intro offset limit acc hlim
    have hapi : api413Above 500 offset limit = ApiResult.err413 := by
      simp only [api413Above]
      rw [if_neg (by omega)]
    simp only [fetch_all_records, hapi]
    rw [if_neg (notMaxLt _)]
    exact ih offset _ acc (Nat.le_max_left _ _)

/-- Witness for C1: from the actual initial state (offset 0, limit 15000),
20 iterations against the threshold-500 API are still looping. -/
theorem fetch_threshold500_diverges_witness :
    fetch_all_records (api413Above 500) 20 ⟨0, 15000, []⟩ = FetchOutcome.outOfFuel :=
  fetch_threshold500_diverges 20 0 15000 [] (by decide)

/-- On the always-timeout API the fetch loop consumes all its fuel
unchanged: the timeout branch retries the same state with no counter. -/
theorem fetch_timeout_loop (fuel : Nat) :
    ∀ st : FetchState Nat,
      fetch_all_records (apiTimeoutAlways Nat) fuel st = FetchOutcome.outOfFuel := by
  induction fuel with
  | zero => intro st; rfl
  | succ n ih =>
    intro st
    simp only [fetch_all_records, apiTimeoutAlways]
    exact ih st

/-- Claim C2 counterexample: there is no retry cap after which the fetch
fails with `Timeout` — on an API where every request times out, no bound
`cap` makes every longer run end in the `Timeout` failure, because every
run merely exhausts its fuel still retrying. -/
theorem timeout_cap_cex :
    ¬ ∃ cap : Nat, ∀ fuel : Nat, cap < fuel →
        fetch_all_records (apiTimeoutAlways Nat) fuel initFetchState =
          FetchOutcome.failed FetchErr.timeoutFail := by
  rintro ⟨cap, h⟩
  have h2 := h (cap + 1) (Nat.lt_succ_self cap)
  rw [fetch_timeout_loop (cap + 1) initFetchState] at h2
  exact FetchOutcome.noConfusion h2

/-- Claim C2 (amended): on a timeout the fetcher waits the fixed 5-second
backoff and retries the same offset with limit and accumulated records
unchanged (one loop iteration maps the state to itself), and the retries
are not capped: against an always-timing-out API the fetch runs forever,
never failing (with `Timeout` or anything else) and never completing. -/
theorem timeout_retries_uncapped :
    (∀ (α : Type) (api : Nat → Nat → ApiResult α) (fuel : Nat) (st : FetchState α),
        api st.offset st.limit = ApiResult.timeout →
        fetch_all_records api (fuel + 1) st = fetch_all_records api fuel st) ∧
    (∀ (fuel : Nat) (st : FetchState Nat),
        fetch_all_records (apiTimeoutAlways Nat) fuel st = FetchOutcome.outOfFuel) := by
  constructor
  · intro α api fuel st hapi
    simp only [fetch_all_records, hapi]
  · exact fetch_timeout_loop

/-- Witness for C2 (amended): one timed-out iteration from the initial
state leaves the computation exactly where it started. -/
theorem timeout_retries_uncapped_witness :
    fetch_all_records (apiTimeoutAlways Nat) 1 (initFetchState (α := Nat)) =
      fetch_all_records (apiTimeoutAlways Nat) 0 initFetchState :=
  timeout_retries_uncapped.1 Nat (apiTimeoutAlways Nat) 0 initFetchState rfl


/-! ### Theorems: the Deduplicator -/

/-- Kept rows plus counted duplicates account for every input row. -/
theorem dropDup_length_add_count {α : Type} [DecidableEq α] :
    ∀ (l seen : List α),
      (dropDuplicatesAux seen l).length + duplicatedCountAux seen l = l.length := by
  intro l
  induction l with
  | nil => intro seen; rfl
  | cons r rs ih =>
    intro seen
    by_cases hr : r ∈ seen
    · simp only [dropDuplicatesAux, duplicatedCountAux, if_pos hr]
      have := ih (r :: seen)
      simp only [List.length_cons]
      omega
    · simp only [dropDuplicatesAux, duplicatedCountAux, if_neg hr]
      have := ih (r :: seen)
      simp only [List.length_cons]
      omega

/-- The scan-with-seen duplicate count equals the positional count of
indices whose row occurs among `seen` or strictly earlier in the list. -/
theorem dupCountAux_eq_countP {α : Type} [DecidableEq α] :
    ∀ (l seen : List α),
      duplicatedCountAux seen l =
        (List.range l.length).countP (fun i =>
          match l[i]? with
          | some v => decide (v ∈ seen ++ l.take i)
          | none => false) := by
  intro l
  induction l with
  | nil => intro seen; rfl
  | cons r rs ih =>
    intro seen
    simp only [duplicatedCountAux, List.length_cons, List.range_succ_eq_map,
      List.countP_cons, List.countP_map]
    have hcomp :
        List.countP ((fun i =>
          match (r :: rs)[i]? with
          | some v => decide (v ∈ seen ++ (r :: rs).take i)
          | none => false) ∘ Nat.succ) (List.range rs.length) =
        List.countP (fun i =>
          match rs[i]? with
          | some v => decide (v ∈ (r :: seen) ++ rs.take i)
          | none => false) (List.range rs.length) := by
      apply List.countP_congr
      intro j hj
      simp only [Function.comp, List.getElem?_cons_succ, List.take_succ_cons]
      cases hg : rs[j]? with
      | none => simp
      | some v =>
        simp only [decide_eq_true_eq]
        constructor
        · intro h
          simp only [List.mem_append, List.mem_cons] at h ⊢
          tauto
        · intro h
          simp only [List.mem_append, List.mem_cons] at h ⊢
          tauto
    rw [hcomp, ← ih (r :: seen)]
    simp only [List.getElem?_cons_zero, List.take_zero, List.append_nil]
    by_cases hr : r ∈ seen
    · simp [hr]; omega
    · simp [hr]

/-- `df.duplicated().sum()` equals the spec-side count of rows that repeat
an earlier row. -/
theorem dupCountAux_eq_specDupCount {α : Type} [DecidableEq α] (l : List α) :
    duplicatedCountAux [] l = specDupCount l := by
  rw [dupCountAux_eq_countP l []]
  unfold specDupCount
  apply List.countP_congr
  intro i hi
  simp only [isDupAt, List.nil_append]

/-- `drop_duplicates` keeps exactly the first occurrences in original
order. -/
theorem dropDup_eq_keepFirst_filter {α : Type} [DecidableEq α] :
    ∀ (l seen : List α),
      dropDuplicatesAux seen l =
        keepFirstSpec (l.filter (fun x => decide (x ∉ seen))) := by
  intro l
  induction l with
  | nil => intro seen; simp [dropDuplicatesAux, keepFirstSpec]
  | cons r rs ih =>
    intro seen
    by_cases hr : r ∈ seen
    · simp only [dropDuplicatesAux, if_pos hr]
      rw [ih (r :: seen)]
      congr 1
      rw [List.filter_cons_of_neg (by simp [hr])]
      apply List.filter_congr
      intro x hx
      have hiff : (x ∉ seen) ↔ (x ∉ r :: seen) := by
        simp only [List.mem_cons, not_or]
        constructor
        · intro hns
          exact ⟨fun hxr => hns (hxr ▸ hr), hns⟩
        · intro hns
          exact hns.2
      exact decide_eq_decide.mpr hiff.symm
    · simp only [dropDuplicatesAux, if_neg hr]
      rw [List.filter_cons_of_pos (by simp [hr])]
      rw [keepFirstSpec]
      congr 1
      rw [ih (r :: seen), List.filter_filter]
      congr 1
      apply List.filter_congr
      intro x hx
      rw [Bool.eq_iff_iff]
      simp only [Bool.and_eq_true, decide_eq_true_eq, List.mem_cons, not_or]

/-- Rows surviving deduplication were not previously seen. -/
theorem dropDup_not_mem_seen {α : Type} [DecidableEq α] :
    ∀ (l seen : List α) (x : α), x ∈ dropDuplicatesAux seen l → x ∉ seen := by
  intro l
  induction l with
  | nil => intro seen x hx; cases hx
  | cons r rs ih =>
    intro seen x hx
    by_cases hr : r ∈ seen
    · rw [dropDuplicatesAux, if_pos hr] at hx
      have h1 := ih (r :: seen) x hx
      intro hs
      exact h1 (List.mem_cons_of_mem _ hs)
    · rw [dropDuplicatesAux, if_neg hr] at hx
      rcases List.mem_cons.mp hx with h | h
      · exact h ▸ hr
      · have h1 := ih (r :: seen) x h
        intro hs
        exact h1 (List.mem_cons_of_mem _ hs)

/-- The deduplicated output contains no duplicates. -/
theorem dropDup_nodup {α : Type} [DecidableEq α] :
    ∀ (l seen : List α), (dropDuplicatesAux seen l).Nodup := by
  intro l
  induction l with
  | nil => intro seen; exact List.nodup_nil
  | cons r rs ih =>
    intro seen
    by_cases hr : r ∈ seen
    · rw [dropDuplicatesAux, if_pos hr]
      exact ih _
    · rw [dropDuplicatesAux, if_neg hr]
      refine List.nodup_cons.mpr ⟨?_, ih _⟩
      intro hmem
      exact dropDup_not_mem_seen rs (r :: seen) r hmem (List.mem_cons_self _ _)

/-- A duplicate-free list disjoint from `seen` counts zero duplicates. -/
theorem dupCountAux_zero_of_nodup {α : Type} [DecidableEq α] :
    ∀ (l seen : List α), l.Nodup → (∀ x ∈ l, x ∉ seen) →
      duplicatedCountAux seen l = 0 := by
  intro l
  induction l with
  | nil => intro seen _ _; rfl
  | cons r rs ih =>
    intro seen hnd hdisj
    have hr : r ∉ seen := hdisj r (List.mem_cons_self _ _)
    rw [duplicatedCountAux, if_neg hr]
    rw [ih (r :: seen) (List.nodup_cons.mp hnd).2]
    intro x hx
    rcases List.nodup_cons.mp hnd with ⟨hrn, _⟩
    rw [List.mem_cons, not_or]
    exact ⟨fun hxr => hrn (hxr ▸ hx), hdisj x (List.mem_cons_of_mem _ hx)⟩

/-- Claim C8 (confirmed): for an input frame with `k` exact-duplicate rows
beyond each first occurrence (nulls comparing equal, as `Cell` equality
does), `remove_duplicates` reports `removedCount = k`, returns
`input row count − k` rows, keeps exactly the first occurrences in original
order, and re-running it on its own output reports `removedCount = 0`. -/
theorem remove_duplicates_spec (f : Frame) :
    (remove_duplicates f).2 = specDupCount f.rows ∧
    (remove_duplicates f).1.rows.length + specDupCount f.rows = f.rows.length ∧
    (remove_duplicates f).1.rows.length = f.rows.length - specDupCount f.rows ∧
    (remove_duplicates f).1.rows = keepFirstSpec f.rows ∧
    (remove_duplicates (remove_duplicates f).1).2 = 0 := by
  have hcount : (remove_duplicates f).2 = specDupCount f.rows :=
    dupCountAux_eq_specDupCount f.rows
  have hlen : (remove_duplicates f).1.rows.length + specDupCount f.rows =
      f.rows.length := by
    rw [← hcount]
    exact dropDup_length_add_count f.rows []
  refine ⟨hcount, hlen, by omega, ?_, ?_⟩
  · show dropDuplicatesAux [] f.rows = keepFirstSpec f.rows
    rw [dropDup_eq_keepFirst_filter f.rows []]
    congr 1
    apply List.filter_eq_self.mpr
    intro a _
    simp
  · show duplicatedCountAux [] (dropDuplicatesAux [] f.rows) = 0
    apply dupCountAux_zero_of_nodup _ _ (dropDup_nodup f.rows [])
    intro x _
    exact List.not_mem_nil x

/-! ### Theorems: the SchemaNormalizer -/

/-- A present column's index is within bounds. -/
theorem colIdx_lt_of_mem :
    ∀ (cols : List String) (c : String), c ∈ cols → colIdx cols c < cols.length := by
  intro cols
  induction cols with
  | nil => intro c hc; cases hc
  | cons d rest ih =>
    intro c hc
    by_cases hd : d = c
    · simp [colIdx, hd]
    · rw [colIdx, if_neg hd]
      have : c ∈ rest := by
        rcases List.mem_cons.mp hc with h | h
        · exact absurd h.symm hd
        · exact h
      simpa [Nat.succ_lt_succ_iff] using ih c this

/-- Appending columns does not move a column that is already present. -/
theorem colIdx_append_of_mem :
    ∀ (cols l2 : List String) (c : String), c ∈ cols →
      colIdx (cols ++ l2) c = colIdx cols c := by
  intro cols
  induction cols with
  | nil => intro l2 c hc; cases hc
  | cons d rest ih =>
    intro l2 c hc
    by_cases hd : d = c
    · simp [colIdx, hd]
    · rw [List.cons_append, colIdx, if_neg hd, colIdx, if_neg hd]
      have : c ∈ rest := by
        rcases List.mem_cons.mp hc with h | h
        · exact absurd h.symm hd
        · exact h
      rw [ih l2 c this]

/-- A freshly appended column sits at the old column-count position. -/
theorem colIdx_append_self :
    ∀ (cols : List String) (c : String), c ∉ cols →
      colIdx (cols ++ [c]) c = cols.length := by
  intro cols
  induction cols with
  | nil => intro c _; simp [colIdx]
  | cons d rest ih =>
    intro c hc
    have hd : ¬ d = c := fun h => hc (h ▸ List.mem_cons_self _ _)
    rw [List.cons_append, colIdx, if_neg hd, List.length_cons,
      ih c (fun h => hc (List.mem_cons_of_mem _ h))]

/-- Claim C4 (amended): for a well-formed frame, `standardize_schema` never
removes a column or a row, leaves every existing column's values untouched,
and guarantees `remaining_lease` exists afterwards, appending it with
all-null values when it was absent; it is the only column of the target set
that is ever appended. -/
theorem standardize_schema_spec (f : Frame)
    (hwf : ∀ r ∈ f.rows, r.length = f.cols.length) :
    (∀ c ∈ f.cols, c ∈ (standardize_schema f).cols) ∧
    "remaining_lease" ∈ (standardize_schema f).cols ∧
    (∀ c ∈ f.cols, getCol (standardize_schema f) c = getCol f c) ∧
    (standardize_schema f).rows.length = f.rows.length ∧
    ("remaining_lease" ∉ f.cols →
      getCol (standardize_schema f) "remaining_lease" =
        some (f.rows.map (fun _ => (none : Cell)))) := by
  by_cases hrl : "remaining_lease" ∈ f.cols
  · rw [standardize_schema, if_pos hrl]
    exact ⟨fun c hc => hc, hrl, fun c _ => rfl, rfl, fun habs => absurd hrl habs⟩
  · rw [standardize_schema, if_neg hrl]
    refine ⟨?_, ?_, ?_, ?_, ?_⟩
    · intro c hc
      exact List.mem_append_left _ hc
    · exact List.mem_append_right _ (List.mem_singleton.mpr rfl)
    · intro c hc
      show getCol ⟨f.cols ++ ["remaining_lease"], f.rows.map (fun r => r ++ [none])⟩ c
          = getCol f c
      rw [getCol, getCol, if_pos (List.mem_append_left _ hc), if_pos hc]
      show some (List.map _ (f.rows.map (fun r => r ++ [none]))) = _
      rw [List.map_map]
      congr 1
      apply List.map_congr_left
      intro r hr
      show cellAt (f.cols ++ ["remaining_lease"]) (r ++ [none]) c = cellAt f.cols r c
      rw [cellAt, cellAt, colIdx_append_of_mem f.cols _ c hc,
        List.getD_append _ _ _ _ (by rw [hwf r hr] at *; exact colIdx_lt_of_mem f.cols c hc)]
    · exact (List.length_map _ _).symm ▸ rfl
    · intro _
      show getCol ⟨f.cols ++ ["remaining_lease"], f.rows.map (fun r => r ++ [none])⟩
          "remaining_lease" = some (f.rows.map (fun _ => (none : Cell)))
      rw [getCol, if_pos (List.mem_append_right _ (List.mem_singleton.mpr rfl))]
      show some (List.map _ (f.rows.map (fun r => r ++ [none]))) = _
      rw [List.map_map]
      congr 1
      apply List.map_congr_left
      intro r hr
      show cellAt (f.cols ++ ["remaining_lease"]) (r ++ [none]) "remaining_lease" = none
      rw [cellAt, colIdx_append_self f.cols _ hrl, ← hwf r hr,
        List.getD_append_right _ _ _ _ (Nat.le_refl _), Nat.sub_self]
      rfl

/-- Witness for C4 (amended) at the one-column frame `{id: ["1"]}`. -/
theorem standardize_schema_spec_witness :
    "remaining_lease" ∈ (standardize_schema (Frame.mk ["id"] [[some "1"]])).cols :=
  (standardize_schema_spec (Frame.mk ["id"] [[some "1"]]) (by decide)).2.1

/-- Claim C4 counterexample: `town` belongs to the fixed target set and is
absent from the input frame `{id: ["1"]}`, yet `standardize_schema` does not
append it — refuting "appends every column of the fixed target set that is
absent from the input". -/
theorem standardize_schema_missing_town_cex :
    "town" ∈ targetColumns ∧
    "town" ∉ (Frame.mk ["id"] [[some "1"]]).cols ∧
    "town" ∉ (standardize_schema (Frame.mk ["id"] [[some "1"]])).cols := by
  refine ⟨by decide, by decide, ?_⟩
  rw [standardize_schema, if_neg (by decide)]
  decide

/-! ### Theorems: the NullFilter -/

/-- `dropna(subset=critical_fields)` keeps a row exactly when the five
mandatory fields are all non-null. -/
theorem rowKept_iff (cols : List String) (r : List Cell) :
    rowKeptByDropna cols r = true ↔
      (cellAt cols r "resale_price" ≠ none ∧ cellAt cols r "town" ≠ none ∧
       cellAt cols r "flat_type" ≠ none ∧ cellAt cols r "floor_area_sqm" ≠ none ∧
       cellAt cols r "month" ≠ none) := by
  simp [rowKeptByDropna, criticalFields, Option.isSome_iff_ne_none]

/-- Claim C7 (confirmed): when the mandatory columns exist (otherwise
pandas raises), `handle_nulls` drops a row if and only if at least one of
{resale_price, town, flat_type, floor_area_sqm, month} is null in it — so a
null `resale_price` always drops the row and a row whose mandatory fields
are all non-null (e.g. one whose only null is `flat_model`) is always
kept — the removed count equals the number of rows dropped, and the null
census counts nulls per column over the rows as they were before
filtering. -/
theorem handle_nulls_spec (f g : Frame) (removed : Nat)
    (census : List (String × Nat))
    (h : handle_nulls f = some (g, removed, census)) :
    (∀ r, r ∈ g.rows ↔ r ∈ f.rows ∧
      ¬(cellAt f.cols r "resale_price" = none ∨ cellAt f.cols r "town" = none ∨
        cellAt f.cols r "flat_type" = none ∨
        cellAt f.cols r "floor_area_sqm" = none ∨
        cellAt f.cols r "month" = none)) ∧
    (∀ r ∈ f.rows, cellAt f.cols r "resale_price" = none → r ∉ g.rows) ∧
    (∀ r ∈ f.rows,
      (cellAt f.cols r "resale_price" ≠ none ∧ cellAt f.cols r "town" ≠ none ∧
       cellAt f.cols r "flat_type" ≠ none ∧
       cellAt f.cols r "floor_area_sqm" ≠ none ∧
       cellAt f.cols r "month" ≠ none) → r ∈ g.rows) ∧
    removed + g.rows.length = f.rows.length ∧
    removed = f.rows.countP (fun r => !(rowKeptByDropna f.cols r)) ∧
    census = f.cols.map
      (fun c => (c, f.rows.countP (fun r => (cellAt f.cols r c).isNone))) := by
  by_cases hc : criticalFields.all (fun c => decide (c ∈ f.cols))
  · rw [handle_nulls, if_pos hc] at h
    simp only [Option.some.injEq, Prod.mk.injEq] at h
    obtain ⟨hg, hrem, hcen⟩ := h
    have hgrows : g.rows = f.rows.filter (rowKeptByDropna f.cols) := by
      rw [← hg]
    have hmem : ∀ r, r ∈ g.rows ↔ r ∈ f.rows ∧
        ¬(cellAt f.cols r "resale_price" = none ∨ cellAt f.cols r "town" = none ∨
          cellAt f.cols r "flat_type" = none ∨
          cellAt f.cols r "floor_area_sqm" = none ∨
          cellAt f.cols r "month" = none) := by
      intro r
      rw [hgrows, List.mem_filter, rowKept_iff]
      simp only [not_or]
    have hle : (f.rows.filter (rowKeptByDropna f.cols)).length ≤ f.rows.length :=
      List.length_filter_le _ _
    refine ⟨hmem, ?_, ?_, ?_, ?_, hcen.symm⟩
    · intro r _ hnull hmem2
      exact ((hmem r).mp hmem2).2 (Or.inl hnull)
    · intro r hr hall
      exact (hmem r).mpr ⟨hr, by tauto⟩
    · rw [← hrem, hgrows]
      omega
    · rw [← hrem]
      have h1 := f.rows.length_eq_countP_add_countP (rowKeptByDropna f.cols)
      have hkept : (f.rows.filter (rowKeptByDropna f.cols)).length =
          f.rows.countP (rowKeptByDropna f.cols) :=
        (List.countP_eq_length_filter _ _).symm
      have heq : f.rows.countP (fun r => !(rowKeptByDropna f.cols r)) =
          f.rows.countP (fun a => decide ¬(rowKeptByDropna f.cols a = true)) := by
        apply List.countP_congr
        intro a _
        cases hb : rowKeptByDropna f.cols a <;> simp [hb]
      omega
  · rw [handle_nulls, if_neg hc] at h
    cases h

/-- Witness for C7: in a two-row frame, the row with null `resale_price` is
dropped and the row whose only null is `flat_model` is kept. -/
theorem handle_nulls_spec_witness :
    (([none, some "ANG MO KIO", some "3 ROOM", some "70", some "2020-01",
        some "Model A"] : List Cell) ∉
      (Frame.mk ["resale_price", "town", "flat_type", "floor_area_sqm", "month",
          "flat_model"]
        [[some "300000", some "ANG MO KIO", some "3 ROOM", some "70",
          some "2020-01", none]]).rows) ∧
    (([some "300000", some "ANG MO KIO", some "3 ROOM", some "70",
        some "2020-01", none] : List Cell) ∈
      (Frame.mk ["resale_price", "town", "flat_type", "floor_area_sqm", "month",
          "flat_model"]
        [[some "300000", some "ANG MO KIO", some "3 ROOM", some "70",
          some "2020-01", none]]).rows) := by
  have h := handle_nulls_spec
    (Frame.mk ["resale_price", "town", "flat_type", "floor_area_sqm", "month",
        "flat_model"]
      [[none, some "ANG MO KIO", some "3 ROOM", some "70", some "2020-01",
        some "Model A"],
       [some "300000", some "ANG MO KIO", some "3 ROOM", some "70",
        some "2020-01", none]])
    (Frame.mk ["resale_price", "town", "flat_type", "floor_area_sqm", "month",
        "flat_model"]
      [[some "300000", some "ANG MO KIO", some "3 ROOM", some "70",
        some "2020-01", none]])
    1
    [("resale_price", 1), ("town", 0), ("flat_type", 0), ("floor_area_sqm", 0),
     ("month", 0), ("flat_model", 1)]
    (by decide)
  exact ⟨h.2.1 _ (by decide) (by decide), h.2.2.1 _ (by decide) (by decide)⟩

/-! ### Theorems: price metrics, storey parsing, and the handler -/

/-- Claim C5 counterexample: at resale_price 300000 and floor_area_sqm 0,
`derive_price_metrics` produces infinity — not null — for both
`price_per_sqm` and `price_per_sqft` (pandas division by zero follows
numpy and yields `inf`), refuting "zero floor_area_sqm ⇒ null result". -/
theorem price_metrics_zero_area_cex :
    (derive_price_metrics_row (PVal.num 300000) (PVal.num 0)).1 = PVal.inf ∧
    isnaP (derive_price_metrics_row (PVal.num 300000) (PVal.num 0)).1 = false ∧
    (derive_price_metrics_row (PVal.num 300000) (PVal.num 0)).2.2 = PVal.inf := by
  norm_num [derive_price_metrics_row, pDiv, pMul, pRound, qRoundScale,
    qRoundHalfEven, sqmToSqft, isnaP]

/-- Claim C5 (amended): a null `floor_area_sqm` does make all three derived
price metrics null and the derivation is total (no error path); but a zero
`floor_area_sqm` with a positive price yields infinity for `price_per_sqm`
and `price_per_sqft`, and only the 0/0 case is null (NaN). -/
theorem price_metrics_null_zero_spec :
    (∀ p : PVal, derive_price_metrics_row p PVal.null =
        (PVal.null, PVal.null, PVal.null)) ∧
    (∀ q : ℚ, 0 < q →
        (derive_price_metrics_row (PVal.num q) (PVal.num 0)).1 = PVal.inf ∧
        (derive_price_metrics_row (PVal.num q) (PVal.num 0)).2.2 = PVal.inf) ∧
    (derive_price_metrics_row (PVal.num 0) (PVal.num 0)).1 = PVal.null := by
  refine ⟨?_, ?_, ?_⟩
  · intro p
    cases p <;> simp [derive_price_metrics_row, pDiv, pMul, pRound]
  · intro q hq
    have hsq : pRound 100 (pMul (PVal.num 0) sqmToSqft) = PVal.num 0 := by
      norm_num [pMul, pRound, sqmToSqft, qRoundScale, qRoundHalfEven]
    constructor
    · simp [derive_price_metrics_row, pDiv, pRound, hq, hq.ne']
    · show pRound 100
          (pDiv (PVal.num q) (pRound 100 (pMul (PVal.num 0) sqmToSqft))) =
          PVal.inf
      rw [hsq]
      simp [pDiv, pRound, hq, hq.ne']
  · simp [derive_price_metrics_row, pDiv, pRound]

/-- Witness for C5 (amended) at price 300000 and area 0. -/
theorem price_metrics_null_zero_spec_witness :
    (derive_price_metrics_row (PVal.num 300000) (PVal.num 0)).1 = PVal.inf :=
  (price_metrics_null_zero_spec.2.1 300000 (by norm_num)).1

/-- Claim C6 counterexample: `"01 to 03"` — the claimed case-insensitive
separator — parses to `(null, null)`, not `(1, 3)`: the source splits on the
literal uppercase `"TO"`. -/
theorem storey_lowercase_cex :
    parse_storey_range (some "01 to 03") = (none, none) ∧
    parse_storey_range (some "01 to 03") ≠ (some 1, some 3) :=
  ⟨by decide, by decide⟩

/-- Claim C6 (amended): storey parsing accepts `"<lower> TO <upper>"` with
an uppercase, case-SENSITIVE separator and is whitespace-tolerant around the
numbers: `"01 TO 03"` gives lower 1, upper 3, median 2.0, as do
`" 1 TO  3 "` and `"1TO3"`; unparseable values — `"HIGH"`, the lowercase
`"01 to 03"`, or null — give null bounds and a null median. -/
theorem parse_storey_range_spec :
    parse_storey_range (some "01 TO 03") = (some 1, some 3) ∧
    storey_median_of (parse_storey_range (some "01 TO 03")) = some 2 ∧
    parse_storey_range (some " 1 TO  3 ") = (some 1, some 3) ∧
    parse_storey_range (some "1TO3") = (some 1, some 3) ∧
    parse_storey_range (some "HIGH") = (none, none) ∧
    storey_median_of (parse_storey_range (some "HIGH")) = none ∧
    parse_storey_range (some "01 to 03") = (none, none) ∧
    parse_storey_range none = (none, none) := by
  have hp : parse_storey_range (some "01 TO 03") = (some 1, some 3) := by decide
  refine ⟨hp, ?_, by decide, by decide, by decide, by decide, by decide, by decide⟩
  rw [hp]
  norm_num [storey_median_of, qRoundScale, qRoundHalfEven]

/-- Claim C9 (amended): the transform entrypoint returns 400 exactly when a
`KeyError` is raised — by a malformed event missing one of the expected
fields or equally by the processing itself; 200 exactly on success; and 500
exactly for every non-`KeyError` failure, including the `IndexError` of an
event whose `Records` list is empty. -/
theorem lambda_handler_status_spec :
    ∀ (transform : String → String → Except PyExc Unit) (e : S3Event),
      (lambda_handler transform e = 400 ↔
        parseS3Event e = Except.error PyExc.keyError ∨
        ∃ b k, parseS3Event e = Except.ok (b, k) ∧
          transform b k = Except.error PyExc.keyError) ∧
      (lambda_handler transform e = 200 ↔
        ∃ b k, parseS3Event e = Except.ok (b, k) ∧ transform b k = Except.ok ()) ∧
      (lambda_handler transform e = 500 ↔
        (∃ exc, exc ≠ PyExc.keyError ∧ parseS3Event e = Except.error exc) ∨
        ∃ b k exc, exc ≠ PyExc.keyError ∧ parseS3Event e = Except.ok (b, k) ∧
          transform b k = Except.error exc) := by
  intro transform e
  cases hp : parseS3Event e with
  | error exc =>
    cases exc <;> simp [lambda_handler, hp]
  | ok bk =>
    obtain ⟨b, k⟩ := bk
    cases ht : transform b k with
    | ok u =>
      cases u
      simp [lambda_handler, hp, ht]
      exact ⟨⟨b, k, ⟨rfl, rfl⟩, ht⟩,
        fun x x1 x2 hx2 hbx hkx hterr => by
          subst hbx
          subst hkx
          rw [ht] at hterr
          exact Except.noConfusion hterr⟩
    | error exc =>
      cases exc with
      | keyError =>
        simp [lambda_handler, hp, ht]
        exact ⟨⟨b, k, ⟨rfl, rfl⟩, ht⟩,
          fun x x1 x2 hx2 hbx hkx hterr => by
            subst hbx
            subst hkx
            rw [ht] at hterr
            injection hterr with hinj
            exact hx2 hinj.symm⟩
      | indexError =>
        simp [lambda_handler, hp, ht]
        exact ⟨b, k, PyExc.indexError, by decide, ⟨rfl, rfl⟩, ht⟩
      | otherError =>
        simp [lambda_handler, hp, ht]
        exact ⟨b, k, PyExc.otherError, by decide, ⟨rfl, rfl⟩, ht⟩

/-- Claim C9 counterexample: an event with an empty `Records` list is
malformed (it identifies no bucket/key) yet returns 500, not 400, because
indexing `[0]` raises `IndexError`, which the handler's `except KeyError`
does not catch; and a well-formed event whose processing raises `KeyError`
returns 400, not 500. -/
theorem lambda_handler_malformed_cex :
    lambda_handler (fun _ _ => Except.ok ()) (S3Event.mk (some [])) = 500 ∧
    lambda_handler (fun _ _ => Except.error PyExc.keyError)
      (S3Event.mk (some [EvtRecord.mk (some (EvtS3.mk
        (some (EvtBucket.mk (some "hdb-resale-raw-data-ihsan")))
        (some (EvtObject.mk (some "raw/2017-onwards_1.csv")))))])) = 400 :=
  ⟨rfl, rfl⟩
